import Mathlib

/-!
# Session/token lifecycle of `rahulcodepython/todo-backend` — shallow embedding

This file embeds, in Lean, the session-lifecycle subsystem of the Go
repository `rahulcodepython/todo-backend`: the session validators
(`AuthMiddleware` in `apps/users/auth_middleware.go`, `Authenticated` in
the `backend/middleware` package, and the variant of `Authenticated`
without a length check on the split header), the identity resolver
(`AuthenticatedUser` in `backend/middleware/user.go`), the token issuer
(`CreateToken` in `backend/utils/token.go`,
`CreateNewJWTAndUpdateUser` in `apps/users/controllers.go`) and the
account-lifecycle controllers (`LoginUserController`,
`LogoutUserController` in `apps/users/controllers.go`).

Modelling conventions:
* Go `time.Time` is an integer instant (`Time := Int`); `a.Before(b)`
  is `a < b` and `a.After(b)` is `b < a`.
* UUIDs are `Nat`.
* The relational store is a pair of association lists (the `users` and
  `jwt_tokens` tables); `db.QueryRow(... WHERE col = $1).Scan(...)`
  is a `List.find?` that yields `sql.ErrNoRows` when no row matches.
* Infrastructure-level store failures (connection loss etc.) are
  injected through an explicit `Faults` record; `Faults.lookupInfra`
  makes the token lookup fail with a non-`ErrNoRows` error,
  `Faults.deleteFails` makes the `DELETE` `Exec` fail, and
  `Faults.userInfra` makes the user-profile lookup fail with a
  non-`ErrNoRows` error.
* A Fiber handler either sends a response (`respond status message`,
  from `c.Status(..).JSON(..)`), passes control on with a value stored
  in `c.Locals` (`nextJwt`/`nextUser`, from `c.Locals(..); c.Next()`),
  or hits a Go runtime panic (`panicked`: out-of-range slice index,
  failed type assertion without `, ok`, nil-pointer dereference).
* The schema side effects of `DELETE FROM jwt_tokens WHERE id = $1`
  follow the DDL in `backend/database/db.go`: the `users.jwt` column
  is a foreign key `REFERENCES jwt_tokens(id) ON DELETE SET NULL`, so
  deleting a token row clears every user row that references it.
-/

namespace TodoBackend

/-- Go `time.Time`, as an abstract integer instant. -/
abbrev Time := Int

/-- A row of the `jwt_tokens` table.  The `userId` column exists in the
`backend/database/tables.go` DDL (`user_id UUID NOT NULL`) and is read by
`AuthMiddleware`'s `GetJWTByTokenQuery`; the `backend/database/db.go`
variant of the table does not have it, and the queries modelled from that
variant never read it. -/
structure JwtRow where
  id : Nat
  userId : Nat
  token : String
  expiresAt : Time
  deriving Repr, DecidableEq

/-- A row of the `users` table (DDL in `backend/database/db.go`).
`jwt` models the nullable `uuid.NullUUID` column: `none` is SQL `NULL`
(`user.JWT.Valid == false` in Go). -/
structure UserRow where
  id : Nat
  name : String
  email : String
  image : String
  password : String
  jwt : Option Nat
  createdAt : Time
  updatedAt : Time
  deriving Repr, DecidableEq

/-- Errors surfaced by `database/sql`: `sql.ErrNoRows` versus any other
(infrastructure-level) error. -/
inductive DbError where
  | errNoRows
  | infra
  deriving Repr, DecidableEq

/-- The two tables the session subsystem touches. -/
structure Store where
  users : List UserRow
  jwts : List JwtRow
  deriving Repr, DecidableEq

/-- Fault injection for the blocking store calls made by the handlers. -/
structure Faults where
  lookupInfra : Bool
  deleteFails : Bool
  userInfra : Bool
  deriving Repr, DecidableEq

/-- The fault-free environment: every store call reaches the tables. -/
def noFaults : Faults := ⟨false, false, false⟩

/-- Outcome of one Fiber handler invocation. -/
inductive HandlerResult where
  | respond (status : Nat) (message : String)
  | nextJwt (jwt : JwtRow)
  | nextUser (user : UserRow)
  | panicked
  deriving Repr, DecidableEq

/-- Go `strings.Split` on a one-character separator, over `List Char`:
splits around every occurrence of `sep`; the empty string yields `[[]]`,
exactly as `strings.Split("", " ") == []string{""}`. -/
def goSplitChars (sep : Char) : List Char → List (List Char)
  | [] => [[]]
  | c :: cs =>
    if c = sep then [] :: goSplitChars sep cs
    else
      match goSplitChars sep cs with
      | [] => [[c]]
      | w :: ws => (c :: w) :: ws

/-- Go `strings.Split(s, " ")`. -/
def goSplitSpace (s : String) : List String :=
  (goSplitChars ' ' s.data).map (fun cs => String.mk cs)

/-- Modelled from the spec: the constant `utils.ErrMissingAuthHeader`
referenced by `AuthMiddleware` is declared in a `utils` file that is not
in the source tree; §4.4 of the spec calls this failure
`AuthError::MissingCredential`.  Only its distinctness from the other
message constants matters below. -/
def ErrMissingAuthHeader : String := "MissingCredential"

/-- Modelled from the spec: `utils.ErrInvalidAuthHeader` (declaration not
in the source tree); §4.4 calls this `AuthError::InvalidFormat`. -/
def ErrInvalidAuthHeader : String := "InvalidFormat"

/-- Modelled from the spec: `utils.ErrInvalidToken` (declaration not in
the source tree); §4.4 calls this `AuthError::InvalidToken`. -/
def ErrInvalidToken : String := "InvalidToken"

/-- Modelled from the spec: `utils.ErrTokenExpired` (declaration not in
the source tree); §4.4 calls this `AuthError::Expired`. -/
def ErrTokenExpired : String := "Expired"

/-- Modelled from the spec: `utils.ErrUserNotFound` (declaration not in
the source tree); the AuthMiddleware user-lookup failure message. -/
def ErrUserNotFound : String := "UserNotFound"

/-- `SELECT user_id, expires_at FROM jwt_tokens WHERE token = $1`
(`GetJWTByTokenQuery` in `apps/users/sql_commands.go`), scanned into
`(&userID, &expiresAt)`; an empty result set makes `Scan` return
`sql.ErrNoRows`. -/
def queryJwtByToken (f : Faults) (rows : List JwtRow) (token : String) :
    Except DbError (Nat × Time) :=
  if f.lookupInfra then .error .infra
  else
    match rows.find? (fun r => r.token = token) with
    | none => .error .errNoRows
    | some r => .ok (r.userId, r.expiresAt)

/-- `SELECT id, name, email, created_at FROM users WHERE id = $1`
(`GetUserByIDQuery`), scanned into a `User`. -/
def queryUserById (f : Faults) (users : List UserRow) (id : Nat) :
    Except DbError UserRow :=
  if f.userInfra then .error .infra
  else
    match users.find? (fun u => u.id = id) with
    | none => .error .errNoRows
    | some u => .ok u

/-- `SELECT COUNT(*) OVER() AS count, id, token, expires_at FROM
jwt_tokens WHERE token = $1`, as issued by the `Authenticated`
middleware.  `COUNT(*) OVER()` is a window function over the matching
rows, so when no row matches the result set is *empty* and `Scan`
returns `sql.ErrNoRows`; when a row matches, `count` is the number of
matching rows. -/
def queryJwtCountOver (f : Faults) (rows : List JwtRow) (token : String) :
    Except DbError (Nat × JwtRow) :=
  if f.lookupInfra then .error .infra
  else
    match rows.find? (fun r => r.token = token) with
    | none => .error .errNoRows
    | some r => .ok ((rows.filter (fun x => x.token = token)).length, r)

/-- `DELETE FROM jwt_tokens WHERE token = $1` (`DeleteJWTByTokenQuery`),
under the `tables.go` schema whose `jwt_tokens.user_id` column references
`users(id)` (deleting a token row does not touch the `users` table).
When the `Exec` itself fails the store is unchanged. -/
def deleteJwtByToken (f : Faults) (s : Store) (token : String) : Store :=
  if f.deleteFails then s
  else { s with jwts := s.jwts.filter (fun r => ¬ r.token = token) }

/-- `DELETE FROM jwt_tokens WHERE id = $1` (`DeleteJWTByIdQuery`), under
the `db.go` schema: `users.jwt` is a foreign key with
`ON DELETE SET NULL`, so the delete also clears any user row whose `jwt`
column references the deleted id. -/
def deleteJwtById (s : Store) (id : Nat) : Store :=
  { users := s.users.map (fun u => if u.jwt = some id then { u with jwt := none } else u),
    jwts := s.jwts.filter (fun r => ¬ r.id = id) }

/-- `AuthMiddleware` (`apps/users/auth_middleware.go`).  Returns the
handler outcome, the store after the call, and whether the session store
was queried.  The expired branch runs
`db.Exec(DeleteJWTByTokenQuery, tokenString)` and discards both results,
so `Faults.deleteFails` only decides whether the row disappears. -/
def AuthMiddleware (now : Time) (f : Faults) (s : Store) (authHeader : String) :
    HandlerResult × Store × Bool :=
  if authHeader = "" then
    (.respond 401 ErrMissingAuthHeader, s, false)
  else
    let parts := goSplitSpace authHeader
    if parts.length ≠ 2 ∨ parts.headD "" ≠ "Bearer" then
      (.respond 401 ErrInvalidAuthHeader, s, false)
    else
      let tokenString := parts.getD 1 ""
      match queryJwtByToken f s.jwts tokenString with
      | .error .errNoRows => (.respond 401 ErrInvalidToken, s, true)
      | .error .infra => (.respond 500 "Database error", s, true)
      | .ok (userID, expiresAt) =>
        if expiresAt < now then
          (.respond 401 ErrTokenExpired, deleteJwtByToken f s tokenString, true)
        else
          match queryUserById f s.users userID with
          | .error _ => (.respond 401 ErrUserNotFound, s, true)
          | .ok user => (.nextUser user, s, true)

/-- `Authenticated` (`backend/middleware` package, the variant with the
explicit empty-token check).  The expired branch runs
`db.Exec(users.DeleteJWTByIdQuery, jwt.ID)` and returns 500 when that
`Exec` errors. -/
def Authenticated (now : Time) (f : Faults) (s : Store) (authorization : String) :
    HandlerResult × Store × Bool :=
  let parts := goSplitSpace authorization
  if parts.length ≠ 2 ∨ parts.headD "" ≠ "Bearer" then
    (.respond 401 "Invalid Authorization header format. Expected \x27Bearer <token>\x27", s, false)
  else
    let token := parts.getD 1 ""
    if token = "" then
      (.respond 401 "Token is missing", s, false)
    else
      match queryJwtCountOver f s.jwts token with
      | .error _ => (.respond 500 "Internal Server Error", s, true)
      | .ok (count, jwt) =>
        if count = 0 then (.respond 401 "Unauthorized Access", s, true)
        else if jwt.expiresAt < now then
          if f.deleteFails then (.respond 500 "Internal Server Error", s, true)
          else
            (.respond 401 "Token has expired. Please login again.",
              deleteJwtById s jwt.id, true)
        else (.nextJwt jwt, s, true)

/-- The `Authenticated` variant in the unnamed middleware file: after
checking only that the header is non-empty, it evaluates
`authorizationParts[0]` and `authorizationParts[1]` with no length
check, so a header that `strings.Split` cuts into fewer than two parts
panics with an out-of-range index. -/
def AuthenticatedNoLenCheck (now : Time) (f : Faults) (s : Store)
    (authorization : String) : HandlerResult × Store :=
  if authorization = "" then
    (.respond 401 "Unauthorized Access", s)
  else
    let parts := goSplitSpace authorization
    if parts.length < 2 then
      (.panicked, s)
    else
      let header := parts.headD ""
      let token := parts.getD 1 ""
      if header ≠ "Bearer" then
        (.respond 401 "Unauthorized Access", s)
      else
        match queryJwtCountOver f s.jwts token with
        | .error _ => (.respond 500 "Internal Server Error", s)
        | .ok (count, jwt) =>
          if count = 0 then (.respond 401 "Unauthorized Access", s)
          else if jwt.expiresAt < now then
            if f.deleteFails then (.respond 500 "Internal Server Error", s)
            else
              (.respond 401 "Token has expired. Please login again.",
                deleteJwtById s jwt.id)
          else (.nextJwt jwt, s)

/-- `SELECT id, name, email, image, password, jwt, created_at, updated_at
FROM users WHERE jwt = $1` (`GetUserProfileByJWTQuery`). -/
def queryUserByJwtRef (f : Faults) (users : List UserRow) (jwtId : Nat) :
    Except DbError UserRow :=
  if f.userInfra then .error .infra
  else
    match users.find? (fun u => u.jwt = some jwtId) with
    | none => .error .errNoRows
    | some u => .ok u

/-- `AuthenticatedUser` (`backend/middleware/user.go`): the identity
resolver.  `jwtLocal` is `c.Locals("jwt")` as left by the validator
(`none` models an absent value). -/
def AuthenticatedUser (f : Faults) (s : Store) (jwtLocal : Option JwtRow) :
    HandlerResult :=
  match jwtLocal with
  | none => .respond 401 "Authentication required"
  | some jwt =>
    match queryUserByJwtRef f s.users jwt.id with
    | .error .errNoRows => .respond 404 "User not found"
    | .error .infra => .respond 500 "Error fetching user data"
    | .ok user => .nextUser user

/-- The value produced by `utils.CreateToken` on success. -/
structure Token where
  token : String
  expiresAt : Time
  deriving Repr, DecidableEq

/-- `CreateToken` (`backend/utils/token.go`): sets
`ExpiresAt = time.Now().Add(cfg.JWT.Expires)`, signs the claims, and
*returns `nil` when signing fails*.  `signResult` is the outcome of
`tokenClaims.SignedString(secretKey)`: `some signed` on success, `none`
on a signing error. -/
def CreateToken (now expires : Time) (signResult : Option String) : Option Token :=
  match signResult with
  | none => none
  | some signed => some { token := signed, expiresAt := now + expires }

/-- Outcome of `CreateNewJWTAndUpdateUser`. -/
inductive JwtCreateResult where
  | ok (jwt : JwtRow) (s : Store)
  | dbError (s : Store)
  | panicked
  deriving Repr, DecidableEq

/-- `CreateNewJWTAndUpdateUser` (`apps/users/controllers.go`): calls
`utils.CreateToken` and immediately reads `jwtToken.Token` and
`jwtToken.ExpiresAt` *without a nil check*, so a signing failure (where
`CreateToken` returns `nil`) is a nil-pointer dereference panic.  On
success it runs `CreateNewJWT_UpdateUserRowQuery`, which inserts the
token row and points the user's `jwt` column at it in one statement;
`execFails` is whether that `Exec` errors. -/
def CreateNewJWTAndUpdateUser (user : UserRow) (s : Store)
    (now expires : Time) (signResult : Option String) (tokenId : Nat)
    (execFails : Bool) : JwtCreateResult :=
  match CreateToken now expires signResult with
  | none => .panicked
  | some t =>
    let jwt : JwtRow :=
      { id := tokenId, userId := user.id, token := t.token, expiresAt := t.expiresAt }
    if execFails then .dbError s
    else
      .ok jwt
        { users := s.users.map
            (fun u => if u.id = user.id then { u with jwt := some tokenId } else u),
          jwts := jwt :: s.jwts }

/-- Outcome of `LoginUserController`. -/
inductive LoginResult where
  | respond (status : Nat) (message : String)
  | okLogin (token : String) (expiresAt : Time)
  | panicked
  deriving Repr, DecidableEq

/-- `SELECT id, name, email, image, password, jwt, created_at, updated_at
FROM users WHERE email = $1` (`GetUserProfileByEmailQuery`). -/
def queryUserByEmail (f : Faults) (users : List UserRow) (email : String) :
    Except DbError UserRow :=
  if f.userInfra then .error .infra
  else
    match users.find? (fun u => u.email = email) with
    | none => .error .errNoRows
    | some u => .ok u

/-- `SELECT id, token, expires_at FROM jwt_tokens WHERE id = $1`
(`GetUserJWTInfoQuery`). -/
def queryJwtById (f : Faults) (rows : List JwtRow) (id : Nat) :
    Except DbError JwtRow :=
  if f.lookupInfra then .error .infra
  else
    match rows.find? (fun r => r.id = id) with
    | none => .error .errNoRows
    | some r => .ok r

/-- `LoginUserController` (`apps/users/controllers.go`).  `verify` is the
opaque credential hasher's `utils.CompareEncryptedPassword(stored, plain)`
(bcrypt, out of scope per §1 of the spec); `signResult`, `tokenId`,
`expires` and `execFails` parameterise the session issuance exactly as in
`CreateNewJWTAndUpdateUser`. -/
def LoginUserController (now : Time) (f : Faults) (s : Store)
    (email password : String) (verify : String → String → Bool)
    (expires : Time) (signResult : Option String) (tokenId : Nat)
    (execFails : Bool) : LoginResult × Store :=
  if email = "" ∨ password = "" then
    (.respond 400 "All fields are required", s)
  else
    match queryUserByEmail f s.users email with
    | .error .errNoRows => (.respond 404 "User not found", s)
    | .error .infra => (.respond 500 "Error fetching user profile info", s)
    | .ok user =>
      if ¬ verify user.password password then
        (.respond 401 "Invalid credentials", s)
      else
        match user.jwt with
        | none =>
          match CreateNewJWTAndUpdateUser user s now expires signResult tokenId execFails with
          | .panicked => (.panicked, s)
          | .dbError s1 => (.respond 500 "Error creating JWT token", s1)
          | .ok jwt s1 => (.okLogin jwt.token jwt.expiresAt, s1)
        | some jwtRef =>
          match queryJwtById f s.jwts jwtRef with
          | .error .errNoRows => (.respond 404 "User not found", s)
          | .error .infra => (.respond 500 "Error fetching user login info", s)
          | .ok jwt =>
            if jwt.expiresAt < now then
              if f.deleteFails then
                (.respond 500 "Error deleting expired JWT", s)
              else
                let s1 := deleteJwtById s jwt.id
                match CreateNewJWTAndUpdateUser user s1 now expires signResult tokenId execFails with
                | .panicked => (.panicked, s1)
                | .dbError s2 => (.respond 500 "Error creating JWT token", s2)
                | .ok njwt s2 => (.okLogin njwt.token njwt.expiresAt, s2)
            else (.okLogin jwt.token jwt.expiresAt, s)

/-- `LogoutUserController` (`apps/users/controllers.go`): reads
`c.Locals("jwt").(JWT)` with an unchecked type assertion — an absent
value panics — then runs `DeleteJWTByIdQuery` on the session id. -/
def LogoutUserController (f : Faults) (s : Store) (jwtLocal : Option JwtRow) :
    HandlerResult × Store :=
  match jwtLocal with
  | none => (.panicked, s)
  | some jwt =>
    if f.deleteFails then (.respond 500 "Error deleting JWT", s)
    else (.respond 200 "User logged out successfully", deleteJwtById s jwt.id)

end TodoBackend

namespace TodoBackend

-- Scratch checks that the embedding evaluates.
example : goSplitSpace "Bearer tok" = ["Bearer", "tok"] := by decide
example : goSplitSpace "" = [""] := by decide
example : goSplitSpace "Bearer " = ["Bearer", ""] := by decide
example : goSplitSpace "Token" = ["Token"] := by decide

/-- A fault injection where only the expired-cleanup `DELETE` fails. -/
def deleteFaults : Faults := ⟨false, true, false⟩

/-- Sample session row used by the concrete theorems: expires at
instant 0. -/
def exRow : JwtRow := { id := 10, userId := 1, token := "tok", expiresAt := 0 }

/-- Sample subject row owning `exRow` (its `jwt` column references
`exRow.id`). -/
def exUser : UserRow :=
  { id := 1, name := "Ann", email := "a@x.com", image := "",
    password := "secret1", jwt := some 10, createdAt := 0, updatedAt := 0 }

/-- Sample store: one subject, one session. -/
def exStore : Store := { users := [exUser], jwts := [exRow] }

example :
    Authenticated 0 noFaults exStore "Bearer tok" = (.nextJwt exRow, exStore, true) := by
  decide
example :
    AuthMiddleware 0 noFaults exStore "Bearer tok" = (.nextUser exUser, exStore, true) := by
  decide
example :
    (Authenticated 0 noFaults exStore "Bearer ghost").1
      = .respond 500 "Internal Server Error" := by decide
example :
    (AuthMiddleware 0 noFaults exStore "Bearer ghost").1
      = .respond 401 ErrInvalidToken := by decide
example :
    (Authenticated 1000 deleteFaults exStore "Bearer tok").1
      = .respond 500 "Internal Server Error" := by decide
example :
    (AuthMiddleware 1000 deleteFaults exStore "Bearer tok").1
      = .respond 401 ErrTokenExpired := by decide
example :
    (AuthenticatedNoLenCheck 0 noFaults exStore "Token").1 = .panicked := by decide

/-- A successful `find?` forces the corresponding `filter` to be
non-empty, so the `COUNT(*) OVER()` value scanned by `Authenticated` is
never zero when a row was found. -/
theorem filter_length_ne_zero_of_find? {p : JwtRow → Bool} {l : List JwtRow} {r : JwtRow}
    (hfind : l.find? p = some r) : ¬ (l.filter p).length = 0 := by
  have hmem : r ∈ l := List.mem_of_find?_eq_some hfind
  have hp : p r := List.find?_some hfind
  have hmf : r ∈ l.filter p := List.mem_filter.mpr ⟨hmem, hp⟩
  have hpos := List.length_pos.mpr (List.ne_nil_of_mem hmf)
  omega

/-- A header that splits into `["Bearer", t]` is not the empty string. -/
theorem header_ne_empty {h t : String} (hsplit : goSplitSpace h = ["Bearer", t]) :
    ¬ h = "" := by
  intro he
  subst he
  simp [goSplitSpace, goSplitChars] at hsplit

/-- Behaviour of `Authenticated` on a token that is found in the store
and not strictly past its expiry: the session is handed to the next
handler and the store is untouched. -/
theorem authenticated_live (now : Time) (f : Faults) (s : Store) (h t : String) (r : JwtRow)
    (hinf : f.lookupInfra = false)
    (hsplit : goSplitSpace h = ["Bearer", t])
    (ht : ¬ t = "")
    (hfind : s.jwts.find? (fun x => x.token = t) = some r)
    (hlive : ¬ r.expiresAt < now) :
    Authenticated now f s h = (.nextJwt r, s, true) := by
  have hcount := filter_length_ne_zero_of_find? hfind
  simp only [Authenticated, hsplit, queryJwtCountOver, hinf]
  simp [hfind, ht, hcount, hlive]

/-- Behaviour of `AuthMiddleware` past the expiry check, on a token that
is found and not strictly past its expiry: the outcome is decided by the
user lookup, and the store is untouched either way. -/
theorem authMiddleware_found (now : Time) (f : Faults) (s : Store) (h t : String) (r : JwtRow)
    (hinf : f.lookupInfra = false)
    (hsplit : goSplitSpace h = ["Bearer", t])
    (hfind : s.jwts.find? (fun x => x.token = t) = some r)
    (hlive : ¬ r.expiresAt < now) :
    AuthMiddleware now f s h =
      (match queryUserById f s.users r.userId with
        | .error _ => (.respond 401 ErrUserNotFound, s, true)
        | .ok user => (.nextUser user, s, true)) := by
  have hne := header_ne_empty hsplit
  simp only [AuthMiddleware, hne, hsplit, queryJwtByToken, hinf]
  simp [hfind, hlive]

/-- C1 (corrected): a session whose expiry equals the current instant
exactly is treated as *live*, not expired: `Authenticated` passes the
session on unchanged, and `AuthMiddleware` never returns the
token-expired response (both expiry checks are strict, so equality is
on the live side). -/
theorem c1_boundary_equal_now_is_live (now : Time) (f : Faults) (s : Store)
    (h t : String) (r : JwtRow)
    (hinf : f.lookupInfra = false)
    (hsplit : goSplitSpace h = ["Bearer", t])
    (ht : ¬ t = "")
    (hfind : s.jwts.find? (fun x => x.token = t) = some r)
    (hexp : r.expiresAt = now) :
    Authenticated now f s h = (.nextJwt r, s, true) ∧
    (AuthMiddleware now f s h).1 ≠ .respond 401 ErrTokenExpired ∧
    (AuthMiddleware now f s h).2.1 = s := by
  have hlive : ¬ r.expiresAt < now := by rw [hexp]; exact lt_irrefl now
  refine ⟨authenticated_live now f s h t r hinf hsplit ht hfind hlive, ?_, ?_⟩
  · rw [authMiddleware_found now f s h t r hinf hsplit hfind hlive]
    cases hq : queryUserById f s.users r.userId <;> simp [ErrUserNotFound, ErrTokenExpired]
  · rw [authMiddleware_found now f s h t r hinf hsplit hfind hlive]
    cases hq : queryUserById f s.users r.userId <;> simp

/-- C1 witness: the general boundary theorem applied at the concrete
store `exStore`, whose only session expires exactly at the current
instant `0`. -/
theorem c1_boundary_equal_now_is_live_witness :
    Authenticated 0 noFaults exStore "Bearer tok" = (.nextJwt exRow, exStore, true) ∧
    (AuthMiddleware 0 noFaults exStore "Bearer tok").1 ≠ .respond 401 ErrTokenExpired ∧
    (AuthMiddleware 0 noFaults exStore "Bearer tok").2.1 = exStore :=
  c1_boundary_equal_now_is_live 0 noFaults exStore "Bearer tok" "tok" exRow
    (by decide) (by decide) (by decide) (by decide) (by decide)

/-- If `Authenticated`'s `COUNT(*) OVER()` query scans successfully, the
scanned count is positive: whenever a row was found, the matching rows
are non-empty.  Hence the middleware's `count == 0` branch is dead
code. -/
theorem queryJwtCountOver_ok_count_pos {f : Faults} {rows : List JwtRow} {token : String}
    {count : Nat} {r : JwtRow}
    (hq : queryJwtCountOver f rows token = .ok (count, r)) : ¬ count = 0 := by
  unfold queryJwtCountOver at hq
  by_cases hf : f.lookupInfra
  · simp [hf] at hq
  · simp only [hf, Bool.false_eq_true, if_false] at hq
    cases hfind : rows.find? (fun x => x.token = token) with
    | none => rw [hfind] at hq; simp at hq
    | some r' =>
      rw [hfind] at hq
      simp only [Except.ok.injEq, Prod.mk.injEq] at hq
      obtain ⟨hc, _⟩ := hq
      rw [← hc]
      exact filter_length_ne_zero_of_find? hfind

/-- C2 (code bug): a token lookup that finds no session row is reported
by `AuthMiddleware` as 401 `ErrInvalidToken`, but by `Authenticated` as
500 "Internal Server Error": its `COUNT(*) OVER()` query returns an
empty result set for a missing token, `Scan` yields `sql.ErrNoRows`, and
the code maps every scan error to 500.  The `count == 0` branch that its
own comments describe as the not-found 401 path is unreachable: on any
input, `Authenticated` never produces the 401 "Unauthorized Access"
response. -/
theorem c2_not_found_is_500_in_authenticated :
    ((Authenticated 0 noFaults exStore "Bearer ghost").1
        = .respond 500 "Internal Server Error" ∧
      (AuthMiddleware 0 noFaults exStore "Bearer ghost").1
        = .respond 401 ErrInvalidToken) ∧
    ∀ (now : Time) (f : Faults) (s : Store) (h : String),
      (Authenticated now f s h).1 ≠ .respond 401 "Unauthorized Access" := by
  refine ⟨by decide, ?_⟩
  intro now f s h
  simp only [Authenticated]
  split
  · simp
  · split
    · simp
    · rcases hq : queryJwtCountOver f s.jwts ((goSplitSpace h).getD 1 "") with e | ⟨count, r⟩
      · simp [hq]
      · have hc := queryJwtCountOver_ok_count_pos hq
        simp only [hq, hc, if_false]
        split
        · split <;> simp
        · simp

/-- C3 (corrected): when validation finds an expired session,
`AuthMiddleware` ignores the result of the cleanup delete — the outcome
is 401 `ErrTokenExpired` whether or not the delete errors — but the
`Authenticated` middleware checks the delete's `Exec` error and responds
500 "Internal Server Error" when the delete fails; only a successful
delete leaves its outcome at 401 token-expired. -/
theorem c3_expired_cleanup_outcomes (now : Time) (f : Faults) (s : Store)
    (h t : String) (r : JwtRow)
    (hinf : f.lookupInfra = false)
    (hsplit : goSplitSpace h = ["Bearer", t])
    (ht : ¬ t = "")
    (hfind : s.jwts.find? (fun x => x.token = t) = some r)
    (hexp : r.expiresAt < now) :
    (AuthMiddleware now f s h).1 = .respond 401 ErrTokenExpired ∧
    (Authenticated now f s h).1 =
      (if f.deleteFails then .respond 500 "Internal Server Error"
        else .respond 401 "Token has expired. Please login again.") := by
  have hne := header_ne_empty hsplit
  have hcount := filter_length_ne_zero_of_find? hfind
  constructor
  · simp only [AuthMiddleware, hne, hsplit, queryJwtByToken, hinf]
    simp [hfind, hexp]
  · simp only [Authenticated, hsplit, queryJwtCountOver, hinf]
    simp [hfind, ht, hcount, hexp]
    by_cases hd : f.deleteFails <;> simp [hd]

/-- C3 witness: the cleanup-outcome theorem at the concrete store, in
the environment where the cleanup delete fails: `AuthMiddleware` still
answers 401 token-expired while `Authenticated` answers 500. -/
theorem c3_expired_cleanup_outcomes_witness :
    (AuthMiddleware 1000 deleteFaults exStore "Bearer tok").1
      = .respond 401 ErrTokenExpired ∧
    (Authenticated 1000 deleteFaults exStore "Bearer tok").1 =
      (if deleteFaults.deleteFails then .respond 500 "Internal Server Error"
        else .respond 401 "Token has expired. Please login again.") :=
  c3_expired_cleanup_outcomes 1000 deleteFaults exStore "Bearer tok" "tok" exRow
    (by decide) (by decide) (by decide) (by decide) (by decide)

/-- C3 counterexample: with the concrete expired session and a failing
cleanup delete, `Authenticated` answers 500 "Internal Server Error",
not the 401 token-expired response — refuting the claim that a failing
best-effort delete never changes the outcome to an internal error. -/
theorem c3_delete_error_becomes_500 :
    (Authenticated 1000 deleteFaults exStore "Bearer tok").1
      = .respond 500 "Internal Server Error" ∧
    (Authenticated 1000 deleteFaults exStore "Bearer tok").1
      ≠ .respond 401 "Token has expired. Please login again." := by
  decide

/-- C4 (corrected): when the owning subject row is missing despite a
validated session, identity resolution answers with a client-visible
not-found, not an internal error: `AuthenticatedUser` maps the
`sql.ErrNoRows` of its subject lookup to 404 "User not found", and
`AuthMiddleware`'s resolver step answers 401 `ErrUserNotFound`; a 500
arises only from a non-not-found store error. -/
theorem c4_missing_owner_not_500 (now : Time) (f : Faults) (s : Store)
    (h t : String) (r : JwtRow)
    (hinf : f.lookupInfra = false)
    (huinf : f.userInfra = false)
    (hsplit : goSplitSpace h = ["Bearer", t])
    (hfind : s.jwts.find? (fun x => x.token = t) = some r)
    (hlive : ¬ r.expiresAt < now)
    (hnoref : s.users.find? (fun u => u.jwt = some r.id) = none)
    (hnoid : s.users.find? (fun u => u.id = r.userId) = none) :
    AuthenticatedUser f s (some r) = .respond 404 "User not found" ∧
    (AuthMiddleware now f s h).1 = .respond 401 ErrUserNotFound ∧
    (∀ f' : Faults, f'.userInfra = true →
      AuthenticatedUser f' s (some r) = .respond 500 "Error fetching user data") := by
  refine ⟨?_, ?_, ?_⟩
  · simp [AuthenticatedUser, queryUserByJwtRef, huinf, hnoref]
  · rw [authMiddleware_found now f s h t r hinf hsplit hfind hlive]
    simp [queryUserById, huinf, hnoid]
  · intro f' hf'
    simp [AuthenticatedUser, queryUserByJwtRef, hf']

/-- C4 witness: the missing-owner theorem at a concrete store holding
the session row `exRow` but no user row at all. -/
theorem c4_missing_owner_not_500_witness :
    AuthenticatedUser noFaults (Store.mk [] [exRow]) (some exRow)
      = .respond 404 "User not found" ∧
    (AuthMiddleware 0 noFaults (Store.mk [] [exRow]) "Bearer tok").1
      = .respond 401 ErrUserNotFound ∧
    (∀ f' : Faults, f'.userInfra = true →
      AuthenticatedUser f' (Store.mk [] [exRow]) (some exRow)
        = .respond 500 "Error fetching user data") :=
  c4_missing_owner_not_500 0 noFaults (Store.mk [] [exRow]) "Bearer tok" "tok" exRow
    (by decide) (by decide) (by decide) (by decide) (by decide) (by decide) (by decide)

/-- C4 counterexample: with a session row whose owner is absent from the
users table, `AuthenticatedUser` answers 404 "User not found" — not a
500 internal error — refuting the claim that the data-consistency fault
surfaces as an internal error. -/
theorem c4_missing_owner_is_404 :
    AuthenticatedUser noFaults (Store.mk [] [exRow]) (some exRow)
      = .respond 404 "User not found" ∧
    AuthenticatedUser noFaults (Store.mk [] [exRow]) (some exRow)
      ≠ .respond 500 "Error fetching user data" := by
  decide

/-- C5 (corrected): a header that does not split into exactly two
space-separated parts with first part "Bearer" is rejected by both
validators without a store query; but an empty token value after the
scheme name ("Bearer" followed by a space) is rejected before the store
only by `Authenticated` ("Token is missing"): `AuthMiddleware` passes
its format check, queries the session store with the empty token, and
fails with 401 `ErrInvalidToken` — not with the invalid-format error and
not before a store query. -/
theorem c5_format_gate (now : Time) (f : Faults) (s : Store) (h : String)
    (hinf : f.lookupInfra = false) :
    ((¬ h = "") →
      ¬ ((goSplitSpace h).length = 2 ∧ (goSplitSpace h).headD "" = "Bearer") →
      AuthMiddleware now f s h = (.respond 401 ErrInvalidAuthHeader, s, false) ∧
      Authenticated now f s h =
        (.respond 401 "Invalid Authorization header format. Expected \x27Bearer <token>\x27",
          s, false)) ∧
    (goSplitSpace h = ["Bearer", ""] →
      Authenticated now f s h = (.respond 401 "Token is missing", s, false) ∧
      (s.jwts.find? (fun x => x.token = "") = none →
        AuthMiddleware now f s h = (.respond 401 ErrInvalidToken, s, true))) := by
  constructor
  · intro hne hbad
    rw [not_and_or] at hbad
    have hcond : ¬ (goSplitSpace h).length = 2 ∨ ¬ (goSplitSpace h).headD "" = "Bearer" :=
      hbad
    constructor
    · simp only [AuthMiddleware, hne, if_false]
      rw [if_pos hcond]
    · simp only [Authenticated]
      rw [if_pos hcond]
  · intro hsplit
    constructor
    · simp only [Authenticated, hsplit]
      simp
    · intro hmiss
      have hne := header_ne_empty hsplit
      simp only [AuthMiddleware, hne, hsplit, queryJwtByToken, hinf]
      simp [hmiss]

/-- C5 witness: the format-gate theorem at the concrete store and the
header "Bearer " (scheme name, one space, empty token): the second
conjunct applies, showing `AuthMiddleware` querying the store and
failing with `ErrInvalidToken`. -/
theorem c5_format_gate_witness :
    (((¬ ("Bearer " : String) = "") →
      ¬ ((goSplitSpace "Bearer ").length = 2 ∧ (goSplitSpace "Bearer ").headD "" = "Bearer") →
      AuthMiddleware 0 noFaults exStore "Bearer " = (.respond 401 ErrInvalidAuthHeader, exStore, false) ∧
      Authenticated 0 noFaults exStore "Bearer " =
        (.respond 401 "Invalid Authorization header format. Expected \x27Bearer <token>\x27",
          exStore, false)) ∧
    (goSplitSpace "Bearer " = ["Bearer", ""] →
      Authenticated 0 noFaults exStore "Bearer " = (.respond 401 "Token is missing", exStore, false) ∧
      (exStore.jwts.find? (fun x => x.token = "") = none →
        AuthMiddleware 0 noFaults exStore "Bearer " = (.respond 401 ErrInvalidToken, exStore, true)))) :=
  c5_format_gate 0 noFaults exStore "Bearer " (by decide)

/-- C5 counterexample: the concrete header "Bearer " carries an empty
token value after the scheme name, yet `AuthMiddleware` does query the
session store (third component `true`) and fails with `ErrInvalidToken`
rather than the invalid-format error — refuting the claim that this
case fails with the format error without a store query. -/
theorem c5_empty_token_reaches_store :
    (AuthMiddleware 0 noFaults exStore "Bearer ").2.2 = true ∧
    (AuthMiddleware 0 noFaults exStore "Bearer ").1 = .respond 401 ErrInvalidToken ∧
    (AuthMiddleware 0 noFaults exStore "Bearer ").1 ≠ .respond 401 ErrInvalidAuthHeader := by
  decide

/-- C6 (code bug): validation can panic.  The unnamed-file variant of
`Authenticated` indexes `authorizationParts[1]` without checking the
length of the split, so any non-empty Authorization header containing no
space — here the single word "Token" — panics with an out-of-range
index instead of returning an error response; and
`LogoutUserController`'s unchecked type assertion
`c.Locals("jwt").(JWT)` panics when no JWT was stored in the request
context. -/
theorem c6_validation_can_panic :
    (AuthenticatedNoLenCheck 0 noFaults exStore "Token").1 = .panicked ∧
    (LogoutUserController noFaults exStore none).1 = .panicked := by
  decide

/-- The concrete bcrypt stand-in used by the login theorems' witnesses:
the spec treats the credential hasher as an opaque verifier, so any
boolean comparator instantiates it. -/
def eqVerify : String → String → Bool := fun stored given => stored = given

/-- C7 (corrected): a login whose email matches no subject row does not
fail 401 like a wrong password: `LoginUserController` maps the
`sql.ErrNoRows` of the email lookup to the 404 "User not found"
response, while a wrong password on an existing subject fails 401
"Invalid credentials". -/
theorem c7_unknown_email_is_404 (now : Time) (f : Faults) (s : Store)
    (email pw : String) (verify : String → String → Bool)
    (expires : Time) (sig : Option String) (tid : Nat) (ef : Bool)
    (hne : ¬ email = "") (hnp : ¬ pw = "")
    (hinf : f.userInfra = false) :
    (s.users.find? (fun u => u.email = email) = none →
      (LoginUserController now f s email pw verify expires sig tid ef).1
        = .respond 404 "User not found") ∧
    (∀ user : UserRow, s.users.find? (fun u => u.email = email) = some user →
      verify user.password pw = false →
      (LoginUserController now f s email pw verify expires sig tid ef).1
        = .respond 401 "Invalid credentials") := by
  constructor
  · intro hmiss
    simp [LoginUserController, hne, hnp, queryUserByEmail, hinf, hmiss]
  · intro user hfound hbad
    simp [LoginUserController, hne, hnp, queryUserByEmail, hinf, hfound, hbad]

/-- C7 witness: the login-outcome theorem at the concrete store: the
email "b@x.com" matches no subject and yields 404, and the stored
subject with a wrong password yields 401. -/
theorem c7_unknown_email_is_404_witness :
    ((exStore.users.find? (fun u => u.email = "b@x.com") = none →
      (LoginUserController 0 noFaults exStore "b@x.com" "secret1" eqVerify 100 (some "sig") 5 false).1
        = .respond 404 "User not found") ∧
    (∀ user : UserRow, exStore.users.find? (fun u => u.email = "b@x.com") = some user →
      eqVerify user.password "secret1" = false →
      (LoginUserController 0 noFaults exStore "b@x.com" "secret1" eqVerify 100 (some "sig") 5 false).1
        = .respond 401 "Invalid credentials")) :=
  c7_unknown_email_is_404 0 noFaults exStore "b@x.com" "secret1" eqVerify 100 (some "sig") 5
    false (by decide) (by decide) (by decide)

/-- C7 counterexample: logging in with an email that matches no subject
answers 404 "User not found", not a 401 — refuting the claim that an
unknown email fails with the same 401 status as a wrong password. -/
theorem c7_unknown_email_counterexample :
    (LoginUserController 0 noFaults exStore "b@x.com" "secret1" eqVerify 100 (some "sig") 5 false).1
      = .respond 404 "User not found" ∧
    (LoginUserController 0 noFaults exStore "b@x.com" "secret1" eqVerify 100 (some "sig") 5 false).1
      ≠ .respond 401 "Invalid credentials" := by
  decide

/-- C8 (code bug): when signing the token fails, `utils.CreateToken`
returns `nil` and `CreateNewJWTAndUpdateUser` dereferences
`jwtToken.Token` without a nil check: for every user, store and
configuration, a signing failure makes the issuing operation panic
rather than abort with an error outcome. -/
theorem c8_signing_failure_panics (user : UserRow) (s : Store) (now expires : Time)
    (tid : Nat) (ef : Bool) :
    CreateNewJWTAndUpdateUser user s now expires none tid ef = .panicked := rfl

/-- C8 witness: the signing-failure theorem applied at the concrete
user and store. -/
theorem c8_signing_failure_panics_witness :
    CreateNewJWTAndUpdateUser exUser exStore 0 100 none 5 false = .panicked :=
  c8_signing_failure_panics exUser exStore 0 100 5 false

/-- C9 (confirmed): validating a live token is idempotent and
side-effect free: both validators leave the store exactly as it was and
hand on the same resolved session (`Authenticated`) and subject
(`AuthMiddleware`), so validating the same live token twice yields two
identical live outcomes. -/
theorem c9_live_validation_idempotent (now : Time) (f : Faults) (s : Store)
    (h t : String) (r : JwtRow) (u : UserRow)
    (hinf : f.lookupInfra = false) (huinf : f.userInfra = false)
    (hsplit : goSplitSpace h = ["Bearer", t]) (ht : ¬ t = "")
    (hfind : s.jwts.find? (fun x => x.token = t) = some r)
    (hlive : ¬ r.expiresAt < now)
    (huser : s.users.find? (fun x => x.id = r.userId) = some u) :
    Authenticated now f s h = (.nextJwt r, s, true) ∧
    Authenticated now f (Authenticated now f s h).2.1 h = Authenticated now f s h ∧
    AuthMiddleware now f s h = (.nextUser u, s, true) ∧
    AuthMiddleware now f (AuthMiddleware now f s h).2.1 h = AuthMiddleware now f s h := by
  have h1 := authenticated_live now f s h t r hinf hsplit ht hfind hlive
  have hq : queryUserById f s.users r.userId = .ok u := by
    simp [queryUserById, huinf, huser]
  have h3 : AuthMiddleware now f s h = (.nextUser u, s, true) := by
    rw [authMiddleware_found now f s h t r hinf hsplit hfind hlive, hq]
  refine ⟨h1, ?_, h3, ?_⟩
  · rw [h1]
    exact h1
  · rw [h3]
    exact h3

/-- C9 witness: the idempotence theorem at the concrete store with a
session that is strictly before its expiry at the current instant. -/
theorem c9_live_validation_idempotent_witness :
    Authenticated (-5) noFaults exStore "Bearer tok" = (.nextJwt exRow, exStore, true) ∧
    Authenticated (-5) noFaults (Authenticated (-5) noFaults exStore "Bearer tok").2.1
        "Bearer tok" = Authenticated (-5) noFaults exStore "Bearer tok" ∧
    AuthMiddleware (-5) noFaults exStore "Bearer tok" = (.nextUser exUser, exStore, true) ∧
    AuthMiddleware (-5) noFaults (AuthMiddleware (-5) noFaults exStore "Bearer tok").2.1
        "Bearer tok" = AuthMiddleware (-5) noFaults exStore "Bearer tok" :=
  c9_live_validation_idempotent (-5) noFaults exStore "Bearer tok" "tok" exRow exUser
    (by decide) (by decide) (by decide) (by decide) (by decide) (by decide) (by decide)

/-- C10 (corrected): after a successful logout the subject's
current-session reference does *not* keep pointing at the deleted
session row: `DeleteJWTByIdQuery` fires the `users.jwt` foreign key's
`ON DELETE SET NULL` (DDL in `backend/database/db.go`), clearing the
reference.  A subsequent login with correct credentials therefore takes
the no-session path (`!user.JWT.Valid`) and issues a fresh session,
succeeding with the new token — it neither takes the existing-session
path nor fails with "User not found". -/
theorem c10_login_after_logout_issues_fresh_session
    (now expires : Time) (u : UserRow) (r : JwtRow)
    (pw sig : String) (tid : Nat) (verify : String → String → Bool)
    (href : u.jwt = some r.id)
    (hne : ¬ u.email = "") (hnp : ¬ pw = "")
    (hv : verify u.password pw = true) :
    (LogoutUserController noFaults { users := [u], jwts := [r] } (some r)).1
      = .respond 200 "User logged out successfully" ∧
    (LogoutUserController noFaults { users := [u], jwts := [r] } (some r)).2
      = { users := [{ u with jwt := none }], jwts := [] } ∧
    (LoginUserController now noFaults
        (LogoutUserController noFaults { users := [u], jwts := [r] } (some r)).2
        u.email pw verify expires (some sig) tid false).1
      = .okLogin sig (now + expires) := by
  have hout : (LogoutUserController noFaults { users := [u], jwts := [r] } (some r)).2
      = { users := [{ u with jwt := none }], jwts := [] } := by
    simp [LogoutUserController, noFaults, deleteJwtById, href]
  refine ⟨by simp [LogoutUserController, noFaults], hout, ?_⟩
  rw [hout]
  have hfind : ([{ u with jwt := none }] : List UserRow).find?
      (fun x => x.email = u.email) = some { u with jwt := none } := by
    simp [List.find?_cons]
  simp [LoginUserController, hne, hnp, queryUserByEmail, noFaults, hfind, hv,
    CreateNewJWTAndUpdateUser, CreateToken]

/-- C10 witness: the logout-then-login theorem at the concrete subject
and session, with the fresh token "newtok". -/
theorem c10_login_after_logout_issues_fresh_session_witness :
    (LogoutUserController noFaults { users := [exUser], jwts := [exRow] } (some exRow)).1
      = .respond 200 "User logged out successfully" ∧
    (LogoutUserController noFaults { users := [exUser], jwts := [exRow] } (some exRow)).2
      = { users := [{ exUser with jwt := none }], jwts := [] } ∧
    (LoginUserController 50 noFaults
        (LogoutUserController noFaults { users := [exUser], jwts := [exRow] } (some exRow)).2
        exUser.email "secret1" eqVerify 100 (some "newtok") 11 false).1
      = .okLogin "newtok" (50 + 100) :=
  c10_login_after_logout_issues_fresh_session 50 100 exUser exRow "secret1" "newtok" 11
    eqVerify (by decide) (by decide) (by decide) (by decide)

/-- C10 counterexample: with the concrete subject and session, after a
successful logout the stored subject row's `jwt` reference is `NULL`
(not the deleted id), and a login with the same correct credentials
succeeds with a fresh token — it does not fail with the 404
"User not found" outcome the claim predicts. -/
theorem c10_login_after_logout_counterexample :
    (LogoutUserController noFaults exStore (some exRow)).1
      = .respond 200 "User logged out successfully" ∧
    (LogoutUserController noFaults exStore (some exRow)).2
      = { users := [{ exUser with jwt := none }], jwts := [] } ∧
    (LoginUserController 50 noFaults (LogoutUserController noFaults exStore (some exRow)).2
        "a@x.com" "secret1" eqVerify 100 (some "newtok") 11 false).1
      = .okLogin "newtok" 150 ∧
    (LoginUserController 50 noFaults (LogoutUserController noFaults exStore (some exRow)).2
        "a@x.com" "secret1" eqVerify 100 (some "newtok") 11 false).1
      ≠ .respond 404 "User not found" := by
  decide

/-- C1 counterexample: for the concrete session expiring exactly at the
current instant, both validators produce a live outcome — `Authenticated`
hands the session on and neither returns its expired response — refuting
the claim that such a session fails with the expired error. -/
theorem c1_boundary_claim_false :
    (Authenticated 0 noFaults exStore "Bearer tok").1 = .nextJwt exRow ∧
    (Authenticated 0 noFaults exStore "Bearer tok").1
      ≠ .respond 401 "Token has expired. Please login again." ∧
    (AuthMiddleware 0 noFaults exStore "Bearer tok").1 = .nextUser exUser ∧
    (AuthMiddleware 0 noFaults exStore "Bearer tok").1 ≠ .respond 401 ErrTokenExpired := by
  decide

end TodoBackend
